import Mathlib

/-!
Verification of the documentation-retrieval agent (`agent-doc`).

Shallow embedding of the decision logic of the repository:
* `context_client.py` — `Context7Client.resolve_library` /
  `resolve_library_with_llm`: tiered library-name resolution over a list of
  candidate identifiers extracted from the source service's response;
* `memmachine_client.py` — `MemMachineClient.search_similar_queries`,
  `build_context_prompt`;
* `agent_mcp.py` — the `get_library_docs` pipeline.

Network transports are modelled as explicit outcome parameters (a call either
returns a payload or fails); the code's `try/except` handlers become the
corresponding branches of the model. The LLM arbitration backend of
`resolve_library_with_llm` is modelled as a value: either the OpenAI call
raises (`LLMResult.failure`) or it returns the answer text
(`LLMResult.answer`), from which the code extracts the first run of digits
(`re.search(r"\d+", answer)`).
-/

namespace AgentDoc

/-- Python `s.lower().replace("-", "").replace("_", "")` (ASCII case fold):
lower-case every character, then drop every `-` and `_`. Used to normalize
both the query and a candidate's trailing path segment. -/
def normalize (s : String) : String :=
  ((s.toList.map Char.toLower).filter (fun c => c != '-' && c != '_')).asString

/-- Python `lib_id.split("/")[-1]`: the text after the last `/` (the whole
string when it holds no `/`). The fold restarts its accumulator at every
`/`, leaving exactly the final segment. -/
def lastSegment (s : String) : String :=
  (s.toList.foldl (fun acc c => if c = '/' then [] else acc ++ [c]) []).asString

/-- `lib_id.split("/")[-1].lower().replace("-", "").replace("_", "")`:
the normalized trailing path segment of a candidate identifier. -/
def repoName (lib_id : String) : String :=
  normalize (lastSegment lib_id)

/-- The `for lib_id in «matches»: if repo_name == library_lower: return lib_id`
loops of `context_client.py` (lines 258-262, 278-282, 295-299, 368-372):
first candidate whose normalized trailing segment equals the normalized
query, if any. -/
def findExact (library_name : String) («matches» : List String) : Option String :=
  «matches».find? (fun lib_id => decide (repoName lib_id = normalize library_name))

/-- Lines 292-302 of `context_client.py` (the code reached after the
`try/except` of `resolve_library_with_llm`): search `matches` for an exact
normalized match, else `«matches»[0] if «matches» else None`. -/
def finalFallback (library_name : String) («matches» : List String) : Option String :=
  match findExact library_name «matches» with
  | some lib => some lib
  | none => «matches».head?

/-- Value of the digit run starting a character list, read as a decimal
number (the `int(...)` applied to a `re.search(r"\d+", answer)` match). -/
def digitRun : List Char → Nat → Nat
  | c :: rest, acc => if c.isDigit then digitRun rest (acc * 10 + (c.toNat - 48)) else acc
  | [], acc => acc

/-- `re.search(r"\d+", answer)` followed by `int(match.group())`: the first
maximal run of digits in the answer, as a number; `none` when the answer
contains no digit. -/
def firstNumber : List Char → Option Nat
  | [] => none
  | c :: rest => if c.isDigit then some (digitRun (c :: rest) 0) else firstNumber rest

/-- Outcome of the OpenAI chat-completion call in
`resolve_library_with_llm`: the call raises (any `Exception`, including
`ImportError`), or returns the answer text
(`response.choices[0].message.content.strip()`). Stripping edge whitespace
cannot change which digits occur, so the raw text is kept. -/
inductive LLMResult where
  | failure
  | answer (text : String)
deriving DecidableEq

/-- `Context7Client.resolve_library_with_llm(library_name, «matches»)`
(`context_client.py` lines 213-302). `hasKey` is the truthiness of
`self.openai_api_key`; `llm` is the outcome of the OpenAI call. -/
def resolve_library_with_llm (hasKey : Bool) (llm : LLMResult)
    (library_name : String) («matches» : List String) : Option String :=
  if !hasKey then
    «matches».head?
  else
    match llm with
    | .failure => finalFallback library_name «matches»
    | .answer text =>
      let top_matches := «matches».take 15
      match firstNumber text.toList with
      | none => finalFallback library_name «matches»
      | some n =>
        if n = 0 then
          -- `selected_index == -1`: LLM said "no good match"
          match findExact library_name «matches» with
          | some lib => some lib
          | none => «matches».head?
        else if n - 1 < top_matches.length then
          let selected := top_matches.getD (n - 1) ""
          if repoName selected = normalize library_name then
            some selected
          else
            match findExact library_name «matches» with
            | some lib => some lib
            | none => some selected
        else
          -- index out of range: falls out of the `try` into the final fallback
          finalFallback library_name «matches»

/-- Lines 349-355 of `context_client.py`: the non-`/websites/` candidates,
or all candidates when every one starts with `/websites/`. -/
def workingSet («matches» : List String) : List String :=
  let non_website_matches :=
    «matches».filter (fun m => !("/websites/".toList.isPrefixOf m.toList))
  if non_website_matches.isEmpty then «matches» else non_website_matches

/-- `Context7Client.resolve_library(library_name)` from the point where the
candidate identifiers have been extracted (`context_client.py` lines
348-378). An empty `matches` list covers both a response with no
identifier lines and a transport failure — each path returns `None`. -/
def resolve_library (hasKey use_llm : Bool) (llm : LLMResult)
    (library_name : String) («matches» : List String) : Option String :=
  if «matches» = [] then
    none
  else
    let non_website_matches := workingSet «matches»
    if non_website_matches.length = 1 then
      non_website_matches.head?
    else if 1 < non_website_matches.length then
      if use_llm && hasKey then
        resolve_library_with_llm hasKey llm library_name non_website_matches
      else
        match findExact library_name non_website_matches with
        | some lib => some lib
        | none => non_website_matches.head?
    else
      none

/-- Python `s.strip()` (ASCII whitespace): drop leading and trailing
whitespace. -/
def pyStrip (s : String) : String :=
  ((s.toList.dropWhile Char.isWhitespace).reverse.dropWhile Char.isWhitespace).reverse.asString

/-- The record returned by `MemMachineClient.search_similar_queries`
(`memmachine_client.py` lines 69-81). Episodic and profile entries are
opaque to the client (`str()` is applied where they are rendered), so they
are modelled as strings. -/
structure MemoryRecord where
  episodic_memory : List String
  profile_memory : List String
  has_context : Bool
deriving DecidableEq

/-- Outcome of the `POST /v1/memories/search` transport: the parsed
`content` lists of a successful response, or a
`requests.exceptions.RequestException` (connection error, timeout, or an
HTTP error status raised by `raise_for_status`). -/
inductive MemTransport where
  | success (episodic_memory profile_memory : List String)
  | failure
deriving DecidableEq

/-- `MemMachineClient.search_similar_queries(query, user_id, limit)`
(`memmachine_client.py` lines 32-81). The request parameters only shape the
payload sent on the wire; the decision logic depends on the transport
outcome. `bool(episodic_memory or profile_memory)` is true exactly when
either list is non-empty. -/
def search_similar_queries (query user_id : String) (limit : Nat)
    (transport : MemTransport) : MemoryRecord :=
  match transport with
  | .success episodic_memory profile_memory =>
    { episodic_memory := episodic_memory
      profile_memory := profile_memory
      has_context := !episodic_memory.isEmpty || !profile_memory.isEmpty }
  | .failure =>
    { episodic_memory := [], profile_memory := [], has_context := false }

/-- `MemMachineClient.build_context_prompt(episodic_memory, profile_memory,
current_query)` (`memmachine_client.py` lines 200-234). Entries are the
`str()` renderings of the returned records. -/
def build_context_prompt (episodic_memory profile_memory : List String)
    (current_query : String) : String :=
  let profile_parts :=
    if profile_memory.isEmpty then []
    else "=== USER PREFERENCES ===" :: profile_memory
  let episodic_parts :=
    if episodic_memory.isEmpty then []
    else "=== PAST SIMILAR QUERIES ===" ::
      ((episodic_memory.take 3).enum.map
        (fun p => "Past Query " ++ toString (p.1 + 1) ++ ": " ++ p.2))
  let context_parts := profile_parts ++ episodic_parts
  if context_parts.isEmpty then
    "Query: " ++ current_query
  else
    String.intercalate "\n"
      (context_parts ++
        ["=== CURRENT QUERY ===",
         "Current query: " ++ current_query,
         "\nBased on the above context, provide relevant documentation."])

/-- One telemetry call made by `get_library_docs` (`agent_mcp.py`): the
Opik traces for the memory search, the Context7 resolve/fetch, the memory
store, and the end-of-run session summary. Only the fields the pipeline
computes are kept (timings are wall-clock measurements, elided). -/
inductive TraceEvent where
  | memSearch (query : String) (success : Bool)
  | context7 (library_name : String) (library_id : Option String) (success : Bool)
  | memStore (success : Bool)
  | session (library_name : String) (library_id : String) (success : Bool)
deriving DecidableEq

/-- The caller-visible outcome of one `get_library_docs` run: the
"library not found" error text, the "no documentation found" error text, or
the success response (optional memory-context block plus the fetched
document text; decorative formatting and timings elided). -/
inductive PipelineOutcome where
  | libraryNotFound (msg : String)
  | noDocs (msg : String)
  | success (memory_context : Option String) (docs : String)
deriving DecidableEq

/-- One run of the pipeline: its outcome, the telemetry events emitted (in
order), and whether `store_retrieval_session` was executed. -/
structure PipelineRun where
  outcome : PipelineOutcome
  events : List TraceEvent
  storeCalled : Bool
deriving DecidableEq

/-- Python truthiness of `library_id : Optional[str]`: `None` and the empty
string are falsy (`agent_mcp.py` line 153 `if not library_id`). -/
def falsyId : Option String → Bool
  | none => true
  | some s => s.isEmpty

/-- `get_library_docs(library_name, topic, user_id)` (`agent_mcp.py` lines
93-291), with the collaborator outcomes as explicit parameters: `opik` is
the truthiness of `opik_client`, `mem` the memory-search transport outcome,
`library_id` the value returned by `resolve_library`, `docs` the text
returned by `get_docs` (a fetch transport failure yields `""` inside
`get_docs`), and `store_success` the value returned by
`store_retrieval_session`. -/
def get_library_docs (opik : Bool) (mem : MemTransport)
    (library_id : Option String) (docs : String) (store_success : Bool)
    (library_name topic user_id : String) : PipelineRun :=
  let query_text := pyStrip (library_name ++ " " ++ topic)
  let similar_queries := search_similar_queries query_text user_id 3 mem
  let searchEvents :=
    if opik then [TraceEvent.memSearch query_text similar_queries.has_context] else []
  if falsyId library_id then
    { outcome := .libraryNotFound
        ("❌ Library '" ++ library_name ++ "' not found in Context7 database.")
      events := searchEvents ++
        (if opik then [TraceEvent.context7 library_name none false] else [])
      storeCalled := false }
  else
    let lid := library_id.getD ""
    let context7_success := !docs.isEmpty
    let fetchEvents :=
      if opik then [TraceEvent.context7 library_name (some lid) context7_success] else []
    if docs.isEmpty then
      { outcome := .noDocs
          ("❌ No documentation found for '" ++ library_name ++ "' (ID: " ++ lid ++ ")")
        events := searchEvents ++ fetchEvents
        storeCalled := false }
    else
      let storeEvents := if opik then [TraceEvent.memStore store_success] else []
      let sessionEvents :=
        if opik then [TraceEvent.session library_name lid context7_success] else []
      let memory_context :=
        if similar_queries.has_context then
          some (build_context_prompt similar_queries.episodic_memory
            similar_queries.profile_memory query_text)
        else none
      { outcome := .success memory_context docs
        events := searchEvents ++ fetchEvents ++ storeEvents ++ sessionEvents
        storeCalled := true }

/-! ## Helper lemmas -/

/-- A non-empty candidate list has a non-empty working set: the filter
either keeps something or the code falls back to the whole list. -/
lemma workingSet_ne_nil {m : List String} (h : m ≠ []) : workingSet m ≠ [] := by
  simp only [workingSet]
  split
  · exact h
  · next hf => exact fun hc => hf (by rw [hc]; rfl)

lemma ne_nil_of_workingSet_length {m : List String} (h : 0 < (workingSet m).length) :
    m ≠ [] := by
  intro hm
  subst hm
  simp [workingSet] at h

lemma findExact_cons (q a : String) (t : List String) :
    findExact q (a :: t) =
      if repoName a = normalize q then some a else findExact q t := by
  unfold findExact
  by_cases h : repoName a = normalize q <;> simp [List.find?, h]

/-- Whatever `findExact` returns satisfies the normalized equality. -/
lemma findExact_some {q c : String} {l : List String} (h : findExact q l = some c) :
    repoName c = normalize q := by
  induction l with
  | nil => simp [findExact] at h
  | cons a t ih =>
    rw [findExact_cons] at h
    by_cases ha : repoName a = normalize q
    · rw [if_pos ha] at h
      cases h
      exact ha
    · rw [if_neg ha] at h
      exact ih h

/-- A normalized match in the list guarantees `findExact` finds one. -/
lemma findExact_isSome_of_mem {q c : String} {l : List String} (hc : c ∈ l)
    (h : repoName c = normalize q) : ∃ b, findExact q l = some b := by
  induction l with
  | nil => cases hc
  | cons a t ih =>
    rw [findExact_cons]
    by_cases ha : repoName a = normalize q
    · exact ⟨a, by rw [if_pos ha]⟩
    · rcases List.mem_cons.mp hc with rfl | hmem
      · exact absurd h ha
      · obtain ⟨b, hb⟩ := ih hmem
        exact ⟨b, by rw [if_neg ha]; exact hb⟩

lemma finalFallback_ne_none {q : String} {l : List String} (h : l ≠ []) :
    finalFallback q l ≠ none := by
  unfold finalFallback
  cases hf : findExact q l with
  | some lib => simp
  | none =>
    cases l with
    | nil => exact absurd rfl h
    | cons a t => simp

lemma head?_ne_none {l : List String} (h : l ≠ []) : l.head? ≠ none := by
  cases l with
  | nil => exact absurd rfl h
  | cons a t => simp

/-! Branch equations for `resolve_library_with_llm` (each `rfl` or a
rewrite of the case hypotheses into the definition). -/

lemma with_llm_noKey (llm : LLMResult) (q : String) (l : List String) :
    resolve_library_with_llm false llm q l = l.head? := rfl

lemma with_llm_failure (q : String) (l : List String) :
    resolve_library_with_llm true .failure q l = finalFallback q l := rfl

lemma with_llm_answer_noNumber (s q : String) (l : List String)
    (hfn : firstNumber s.toList = none) :
    resolve_library_with_llm true (.answer s) q l = finalFallback q l := by
  unfold resolve_library_with_llm
  simp only [hfn, Bool.not_true, Bool.false_eq_true, if_false]

lemma with_llm_answer_zero (s q : String) (l : List String)
    (hfn : firstNumber s.toList = some 0) :
    resolve_library_with_llm true (.answer s) q l = finalFallback q l := by
  unfold resolve_library_with_llm
  simp only [hfn, Bool.not_true, Bool.false_eq_true, if_false]
  rw [if_true]
  rfl

lemma with_llm_answer_inRange (s q : String) (l : List String) (n : Nat)
    (hfn : firstNumber s.toList = some n) (hn : n ≠ 0)
    (hr : n - 1 < (l.take 15).length) :
    resolve_library_with_llm true (.answer s) q l =
      if repoName ((l.take 15).getD (n - 1) "") = normalize q then
        some ((l.take 15).getD (n - 1) "")
      else
        match findExact q l with
        | some lib => some lib
        | none => some ((l.take 15).getD (n - 1) "") := by
  unfold resolve_library_with_llm
  simp only [hfn, Bool.not_true, Bool.false_eq_true, if_false]
  rw [if_neg hn, if_pos hr]

lemma with_llm_answer_outOfRange (s q : String) (l : List String) (n : Nat)
    (hfn : firstNumber s.toList = some n) (hn : n ≠ 0)
    (hr : ¬(n - 1 < (l.take 15).length)) :
    resolve_library_with_llm true (.answer s) q l = finalFallback q l := by
  unfold resolve_library_with_llm
  simp only [hfn, Bool.not_true, Bool.false_eq_true, if_false]
  rw [if_neg hn, if_neg hr]

lemma with_llm_ne_none (hasKey : Bool) (llm : LLMResult) (q : String)
    (l : List String) (h : l ≠ []) :
    resolve_library_with_llm hasKey llm q l ≠ none := by
  cases hasKey with
  | false =>
    rw [with_llm_noKey]
    exact head?_ne_none h
  | true =>
    cases llm with
    | failure =>
      rw [with_llm_failure]
      exact finalFallback_ne_none h
    | answer s =>
      cases hfn : firstNumber s.toList with
      | none =>
        rw [with_llm_answer_noNumber s q l hfn]
        exact finalFallback_ne_none h
      | some n =>
        by_cases hn : n = 0
        · subst hn
          rw [with_llm_answer_zero s q l hfn]
          exact finalFallback_ne_none h
        · by_cases hr : n - 1 < (l.take 15).length
          · rw [with_llm_answer_inRange s q l n hfn hn hr]
            by_cases hs : repoName ((l.take 15).getD (n - 1) "") = normalize q
            · rw [if_pos hs]
              simp
            · rw [if_neg hs]
              cases hf : findExact q l with
              | some lib => simp [hf]
              | none => simp [hf]
          · rw [with_llm_answer_outOfRange s q l n hfn hn hr]
            exact finalFallback_ne_none h

/-- On a working set with several members, `resolve_library` reduces to the
arbitration branch or, with arbitration disabled, to the deterministic
exact-match-then-first fallback over the working set. -/
lemma resolve_library_multi (hasKey use_llm : Bool) (llm : LLMResult) (q : String)
    (m : List String) (h : 1 < (workingSet m).length) :
    resolve_library hasKey use_llm llm q m =
      if use_llm && hasKey then
        resolve_library_with_llm hasKey llm q (workingSet m)
      else
        finalFallback q (workingSet m) := by
  have hm : m ≠ [] := ne_nil_of_workingSet_length (by omega)
  unfold resolve_library
  rw [if_neg hm, if_neg (by omega), if_pos h]
  rfl

/-! ## Claims -/

/-- **C2.** For every candidate set whose working set (non-`/websites/`
candidates, or all candidates when every one carries the `/websites/`
prefix) has exactly one member, `resolve_library` returns that single
candidate, and the result is the same whether the arbitration flag is
enabled or disabled. -/
theorem single_working_candidate_resolves (hasKey : Bool) (llm llm' : LLMResult)
    (library_name : String) (m : List String)
    (h : (workingSet m).length = 1) :
    resolve_library hasKey true llm library_name m = (workingSet m).head? ∧
    resolve_library hasKey false llm' library_name m =
      resolve_library hasKey true llm library_name m := by
  have hm : m ≠ [] := ne_nil_of_workingSet_length (by omega)
  constructor <;> simp [resolve_library, hm, h]

/-- Witness for C2 at a concrete input: `/websites/` candidates are
dropped, one candidate remains, and it is returned with or without
arbitration. -/
theorem single_working_candidate_resolves_witness :
    (workingSet ["/websites/numpy", "/foo/bar"]).length = 1 ∧
    (resolve_library true true (.answer "2") "bar" ["/websites/numpy", "/foo/bar"] =
        (workingSet ["/websites/numpy", "/foo/bar"]).head? ∧
      resolve_library true false .failure "bar" ["/websites/numpy", "/foo/bar"] =
        resolve_library true true (.answer "2") "bar" ["/websites/numpy", "/foo/bar"]) :=
  ⟨by rfl,
   single_working_candidate_resolves true (.answer "2") .failure "bar"
     ["/websites/numpy", "/foo/bar"] (by rfl)⟩

lemma resolve_ne_none (hasKey use_llm : Bool) (llm : LLMResult)
    (library_name : String) (m : List String) (hm : m ≠ []) :
    resolve_library hasKey use_llm llm library_name m ≠ none := by
  have hw : workingSet m ≠ [] := workingSet_ne_nil hm
  have hlen : 0 < (workingSet m).length := List.length_pos.mpr hw
  by_cases h1 : (workingSet m).length = 1
  · have : resolve_library hasKey use_llm llm library_name m = (workingSet m).head? := by
      unfold resolve_library
      rw [if_neg hm, if_pos h1]
    rw [this]
    exact head?_ne_none hw
  · have h2 : 1 < (workingSet m).length := by omega
    rw [resolve_library_multi hasKey use_llm llm library_name m h2]
    by_cases hb : (use_llm && hasKey) = true
    · rw [if_pos hb]
      exact with_llm_ne_none hasKey llm library_name (workingSet m) hw
    · rw [if_neg hb]
      exact finalFallback_ne_none hw

/-- **C3.** `resolve_library` returns an absent identifier (`none`) exactly
when the extracted candidate list is empty; with candidates present it
always produces an identifier rather than failing. -/
theorem resolve_none_iff_no_candidates (hasKey use_llm : Bool) (llm : LLMResult)
    (library_name : String) (m : List String) :
    resolve_library hasKey use_llm llm library_name m = none ↔ m = [] := by
  constructor
  · intro h
    by_contra hm
    exact resolve_ne_none hasKey use_llm llm library_name m hm h
  · intro h
    subst h
    rfl

/-- **C10.** Every record returned by the memory search satisfies
`has_context = (episodic non-empty or profile non-empty)`, in the success
branch and in the transport-failure branch alike. -/
theorem has_context_iff_nonempty (query user_id : String) (limit : Nat)
    (transport : MemTransport) :
    (search_similar_queries query user_id limit transport).has_context =
      (!(search_similar_queries query user_id limit transport).episodic_memory.isEmpty ||
        !(search_similar_queries query user_id limit transport).profile_memory.isEmpty) := by
  cases transport <;> rfl

/-- **C7.** `build_context_prompt` is deterministic (two calls on identical
inputs yield identical text), returns exactly `"Query: " ++ q` on empty
episodic and profile lists, and never renders more than the first 3
episodic entries (its output only depends on `episodic.take 3`). -/
theorem build_context_prompt_spec :
    (∀ (episodic profile : List String) (q : String),
        build_context_prompt episodic profile q =
          build_context_prompt episodic profile q) ∧
    (∀ q : String, build_context_prompt [] [] q = "Query: " ++ q) ∧
    (∀ (episodic profile : List String) (q : String),
        build_context_prompt episodic profile q =
          build_context_prompt (episodic.take 3) profile q) := by
  refine ⟨fun _ _ _ => rfl, fun _ => rfl, fun episodic profile q => ?_⟩
  have h1 : (episodic.take 3).take 3 = episodic.take 3 := by
    rw [List.take_take, Nat.min_self]
  have h2 : (episodic.take 3).isEmpty = episodic.isEmpty := by
    cases episodic <;> rfl
  simp only [build_context_prompt, h1, h2]

/-- The `ArbitrationFailure` cases of the backend: the call raised, or its
answer contains no parseable numeric index. -/
def llmUnusable : LLMResult → Bool
  | .failure => true
  | .answer text => (firstNumber text.toList).isNone

/-- **C4.** When the arbitration backend errors or its answer holds no
parseable index, `resolve_library` with arbitration enabled returns exactly
what it returns with arbitration disabled on the same inputs. -/
theorem unusable_arbitration_eq_disabled (hasKey : Bool) (llm llm' : LLMResult)
    (library_name : String) (m : List String)
    (hlen : 1 < (workingSet m).length) (hu : llmUnusable llm = true) :
    resolve_library hasKey true llm library_name m =
      resolve_library hasKey false llm' library_name m := by
  rw [resolve_library_multi hasKey true llm library_name m hlen,
    resolve_library_multi hasKey false llm' library_name m hlen]
  have hsame : resolve_library_with_llm true llm library_name (workingSet m) =
      finalFallback library_name (workingSet m) := by
    cases llm with
    | failure => exact with_llm_failure library_name (workingSet m)
    | answer s =>
      have hfn : firstNumber s.toList = none := by
        simpa [llmUnusable, Option.isNone_iff_eq_none] using hu
      exact with_llm_answer_noNumber s library_name (workingSet m) hfn
  cases hasKey with
  | false => rfl
  | true => simpa using hsame

/-- Witness for C4: backend raised on one side, disabled arbitration on the
other, identical result. -/
theorem unusable_arbitration_eq_disabled_witness :
    1 < (workingSet ["/a/x", "/b/y"]).length ∧ llmUnusable .failure = true ∧
    resolve_library true true .failure "foo" ["/a/x", "/b/y"] =
      resolve_library true false (.answer "1") "foo" ["/a/x", "/b/y"] :=
  ⟨by decide, rfl,
   unusable_arbitration_eq_disabled true .failure (.answer "1") "foo"
     ["/a/x", "/b/y"] (by decide) rfl⟩

/-- **C6 counterexample.** The deterministic exact fallback does not require
a unique normalized match: with `/b/foo` and `/c/foo` both matching query
`foo`, the code still returns the first matching candidate `/b/foo`, not
the first working-set element `/a/bar` that the claim prescribes for a
non-unique match. -/
theorem exact_fallback_uniqueness_cex :
    repoName "/b/foo" = normalize "foo" ∧
    repoName "/c/foo" = normalize "foo" ∧
    workingSet ["/a/bar", "/b/foo", "/c/foo"] = ["/a/bar", "/b/foo", "/c/foo"] ∧
    resolve_library true false .failure "foo" ["/a/bar", "/b/foo", "/c/foo"] =
      some "/b/foo" ∧
    some "/b/foo" ≠ ((["/a/bar", "/b/foo", "/c/foo"] : List String).head?) :=
  ⟨rfl, rfl, rfl, rfl, by decide⟩

/-- **C6 amended.** In the deterministic branch with several working-set
members, `resolve_library` returns the first working-set candidate whose
normalized trailing segment equals the normalized query whenever at least
one exists — uniqueness is not required — and the first working-set element
otherwise (`finalFallback` is exactly that first-match search). -/
theorem deterministic_first_match_fallback (hasKey : Bool) (llm : LLMResult)
    (library_name : String) (m : List String)
    (hlen : 1 < (workingSet m).length) :
    resolve_library hasKey false llm library_name m =
      finalFallback library_name (workingSet m) := by
  rw [resolve_library_multi hasKey false llm library_name m hlen]
  simp

/-- Witness for the amended C6. -/
theorem deterministic_first_match_fallback_witness :
    1 < (workingSet ["/a/bar", "/b/foo", "/c/foo"]).length ∧
    resolve_library false false .failure "foo" ["/a/bar", "/b/foo", "/c/foo"] =
      finalFallback "foo" (workingSet ["/a/bar", "/b/foo", "/c/foo"]) :=
  ⟨by decide,
   deterministic_first_match_fallback false .failure "foo"
     ["/a/bar", "/b/foo", "/c/foo"] (by decide)⟩

/-- **C5 counterexample.** When the backend answers index 0, the code
searches only the working set (`non_website_matches`), not the full
candidate set: the full set here contains the exact normalized match
`/websites/foo`, yet the code returns the first working-set candidate
`/a/x`. -/
theorem zero_index_full_set_cex :
    1 < (workingSet ["/a/x", "/b/y", "/websites/foo"]).length ∧
    firstNumber "0".toList = some 0 ∧
    findExact "foo" ["/a/x", "/b/y", "/websites/foo"] = some "/websites/foo" ∧
    resolve_library true true (.answer "0") "foo" ["/a/x", "/b/y", "/websites/foo"] =
      some "/a/x" ∧
    some "/a/x" ≠ (some "/websites/foo" : Option String) :=
  ⟨by decide, rfl, rfl, rfl, by decide⟩

/-- **C5 amended.** When arbitration returns index 0 over a multi-member
working set, `resolve_library` searches the working set (not the full
candidate set) for a candidate whose normalized trailing segment equals the
normalized query, returns the first such candidate, and otherwise returns
the first working-set candidate. -/
theorem zero_index_searches_working_set (s library_name : String)
    (m : List String) (hlen : 1 < (workingSet m).length)
    (hfn : firstNumber s.toList = some 0) :
    resolve_library true true (.answer s) library_name m =
      finalFallback library_name (workingSet m) := by
  rw [resolve_library_multi true true (.answer s) library_name m hlen]
  show resolve_library_with_llm true (.answer s) library_name (workingSet m) =
    finalFallback library_name (workingSet m)
  exact with_llm_answer_zero s library_name (workingSet m) hfn

/-- Witness for the amended C5. -/
theorem zero_index_searches_working_set_witness :
    1 < (workingSet ["/a/x", "/b/foo"]).length ∧
    firstNumber "0".toList = some 0 ∧
    resolve_library true true (.answer "0") "foo" ["/a/x", "/b/foo"] =
      finalFallback "foo" (workingSet ["/a/x", "/b/foo"]) :=
  ⟨by decide, rfl,
   zero_index_searches_working_set "0" "foo" ["/a/x", "/b/foo"] (by decide) rfl⟩

/-- **C1 counterexample.** A normalized exact match that exists only among
the `/websites/` candidates (outside the working set) is not found by the
verification search: the backend's valid pick `/a/x` is returned even
though the full candidate list contains the exact match `/websites/foo`. -/
theorem arbitration_override_cex :
    1 < (workingSet ["/a/x", "/b/y", "/websites/foo"]).length ∧
    (∃ c ∈ (["/a/x", "/b/y", "/websites/foo"] : List String),
        repoName c = normalize "foo") ∧
    firstNumber "1".toList = some 1 ∧
    1 ≤ ((workingSet ["/a/x", "/b/y", "/websites/foo"]).take 15).length ∧
    resolve_library true true (.answer "1") "foo" ["/a/x", "/b/y", "/websites/foo"] =
      some "/a/x" ∧
    ¬ repoName "/a/x" = normalize "foo" :=
  ⟨by decide, ⟨"/websites/foo", by decide, rfl⟩, rfl, by decide, rfl, by decide⟩

/-- **C1 amended.** If some *working-set* candidate's normalized trailing
segment equals the normalized query, then for any arbitration answer whose
first number is a valid 1-based index into the presented list,
`resolve_library` returns a candidate whose normalized trailing segment
equals the normalized query: a verified pick is returned as is, and an
unverified pick is overridden by the working-set exact match. -/
theorem arbitration_preserves_working_set_match (s library_name : String)
    (n : Nat) (m : List String) (hlen : 1 < (workingSet m).length)
    (hfn : firstNumber s.toList = some n) (h1 : 1 ≤ n)
    (h2 : n ≤ ((workingSet m).take 15).length)
    (hex : ∃ c ∈ workingSet m, repoName c = normalize library_name) :
    ∃ c, resolve_library true true (.answer s) library_name m = some c ∧
      repoName c = normalize library_name := by
  rw [resolve_library_multi true true (.answer s) library_name m hlen]
  show ∃ c, resolve_library_with_llm true (.answer s) library_name (workingSet m) =
      some c ∧ repoName c = normalize library_name
  have hn : n ≠ 0 := by omega
  have hr : n - 1 < ((workingSet m).take 15).length := by omega
  rw [with_llm_answer_inRange s library_name (workingSet m) n hfn hn hr]
  by_cases hs :
      repoName (((workingSet m).take 15).getD (n - 1) "") = normalize library_name
  · rw [if_pos hs]
    exact ⟨((workingSet m).take 15).getD (n - 1) "", rfl, hs⟩
  · rw [if_neg hs]
    obtain ⟨c, hc, hrep⟩ := hex
    obtain ⟨b, hb⟩ := findExact_isSome_of_mem hc hrep
    rw [hb]
    exact ⟨b, rfl, findExact_some hb⟩

/-- Witness for the amended C1: the backend's pick `/a/x` fails
verification and the working-set exact match `/b/foo` is returned. -/
theorem arbitration_preserves_working_set_match_witness :
    1 < (workingSet ["/a/x", "/b/foo"]).length ∧
    firstNumber "1".toList = some 1 ∧ 1 ≤ 1 ∧
    1 ≤ ((workingSet ["/a/x", "/b/foo"]).take 15).length ∧
    (∃ c ∈ workingSet ["/a/x", "/b/foo"], repoName c = normalize "foo") ∧
    (∃ c, resolve_library true true (.answer "1") "foo" ["/a/x", "/b/foo"] =
        some c ∧ repoName c = normalize "foo") :=
  ⟨by decide, rfl, by decide, by decide, by decide,
   arbitration_preserves_working_set_match "1" "foo" 1 ["/a/x", "/b/foo"]
     (by decide) rfl (by decide) (by decide) (by decide)⟩

/-- **C8.** The memory search never surfaces a failure: a transport error
yields the empty record `{[], [], false}`, the pipeline run with a failed
search is identical to the run with an empty successful search, and with a
resolvable identifier and non-empty document text the run still reaches the
success outcome — the lookup stage never blocks resolution and fetch. -/
theorem memory_search_failure_absorbed :
    (∀ (query user_id : String) (limit : Nat),
        search_similar_queries query user_id limit .failure =
          { episodic_memory := [], profile_memory := [], has_context := false }) ∧
    (∀ (opik : Bool) (library_id : Option String) (docs : String)
        (store_success : Bool) (library_name topic user_id : String),
        get_library_docs opik .failure library_id docs store_success
            library_name topic user_id =
          get_library_docs opik (.success [] []) library_id docs store_success
            library_name topic user_id) ∧
    (∀ (opik : Bool) (lid docs : String) (store_success : Bool)
        (library_name topic user_id : String),
        lid ≠ "" → docs ≠ "" →
        (get_library_docs opik .failure (some lid) docs store_success
            library_name topic user_id).outcome = .success none docs) := by
  refine ⟨fun _ _ _ => rfl, fun _ _ _ _ _ _ _ => rfl,
    fun opik lid docs store_success library_name topic user_id hl hd => ?_⟩
  have hlid : lid.isEmpty = false := by
    cases hb : lid.isEmpty with
    | false => rfl
    | true => exact absurd ((String.isEmpty_iff lid).mp hb) hl
  have hdocs : docs.isEmpty = false := by
    cases hb : docs.isEmpty with
    | false => rfl
    | true => exact absurd ((String.isEmpty_iff docs).mp hb) hd
  simp [get_library_docs, falsyId, hlid, hdocs, search_similar_queries]

/-- Witness for C8: a failed memory lookup followed by a successful resolve
and fetch still succeeds. -/
theorem memory_search_failure_absorbed_witness :
    ("/fastapi/fastapi" : String) ≠ "" ∧ ("some docs" : String) ≠ "" ∧
    (get_library_docs true .failure (some "/fastapi/fastapi") "some docs" true
        "fastapi" "" "zed_user").outcome = .success none "some docs" :=
  ⟨by decide, by decide,
   memory_search_failure_absorbed.2.2 true "/fastapi/fastapi" "some docs" true
     "fastapi" "" "zed_user" (by decide) (by decide)⟩

/-- **C9.** When resolution succeeds (a non-empty identifier) but the fetch
returns empty text, the pipeline fails with the "no documentation found"
message naming the identifier, the memory store step is never executed, and
(whenever the telemetry client is configured) a failure event carrying that
identifier is emitted. -/
theorem empty_fetch_fails_without_store (opik : Bool) (mem : MemTransport)
    (lid : String) (store_success : Bool) (library_name topic user_id : String)
    (h : lid ≠ "") :
    (get_library_docs opik mem (some lid) "" store_success
        library_name topic user_id).outcome =
      .noDocs ("❌ No documentation found for '" ++ library_name ++
        "' (ID: " ++ lid ++ ")") ∧
    (get_library_docs opik mem (some lid) "" store_success
        library_name topic user_id).storeCalled = false ∧
    (opik = true →
      TraceEvent.context7 library_name (some lid) false ∈
        (get_library_docs opik mem (some lid) "" store_success
          library_name topic user_id).events) := by
  have hlid : lid.isEmpty = false := by
    cases hb : lid.isEmpty with
    | false => rfl
    | true => exact absurd ((String.isEmpty_iff lid).mp hb) h
  have h0 : ("" : String).isEmpty = true := rfl
  refine ⟨?_, ?_, fun ho => ?_⟩
  · simp [get_library_docs, falsyId, hlid, h0]
  · simp [get_library_docs, falsyId, hlid, h0]
  · subst ho
    simp [get_library_docs, falsyId, hlid, h0]

/-- Witness for C9 at a concrete input. -/
theorem empty_fetch_fails_without_store_witness :
    ("/fastapi/fastapi" : String) ≠ "" ∧
    ((get_library_docs true (.success [] []) (some "/fastapi/fastapi") "" true
        "fastapi" "" "zed_user").outcome =
      .noDocs ("❌ No documentation found for '" ++ "fastapi" ++
        "' (ID: " ++ "/fastapi/fastapi" ++ ")") ∧
    (get_library_docs true (.success [] []) (some "/fastapi/fastapi") "" true
        "fastapi" "" "zed_user").storeCalled = false ∧
    (true = true →
      TraceEvent.context7 "fastapi" (some "/fastapi/fastapi") false ∈
        (get_library_docs true (.success [] []) (some "/fastapi/fastapi") "" true
          "fastapi" "" "zed_user").events)) :=
  ⟨by decide,
   empty_fetch_fails_without_store true (.success [] []) "/fastapi/fastapi" true
     "fastapi" "" "zed_user" (by decide)⟩

end AgentDoc
